import Mathlib

/-!
Shallow embedding of the `did-comm-with-mediator-rs` demo server core:
the packet-event data model (`src/packet_logger.rs`), the two flow
orchestrators (`src/flows/send_message.rs`, `src/flows/trust_ping.rs`)
and the HTTP handlers that wrap them (`src/api.rs`).

External collaborator calls (the `affinidi` messaging SDK: `pack_encrypted`,
`forward_message`, `send_message`/dispatch, `live_stream_get`, `send_ping`)
and the ambient nondeterminism (UUIDs, wall-clock timestamps, JSON
serialisation performed by `serde`) are supplied as explicit parameters
(`SendEnv`, `PingEnv`, `Gen`), so every flow is a pure function.  The
broadcast channel is instrumented: each flow returns, next to its Rust
result, the chronological list of events it handed to `packet_tx.send`.
-/

namespace DidCommDemo

/-- A structured JSON document, standing in for `serde_json::Value`.
Numbers are restricted to naturals, which covers every payload the
flows construct (`size_bytes`, epoch seconds). -/
inductive Json where
  | null : Json
  | bool (b : Bool) : Json
  | num (n : Nat) : Json
  | str (s : String) : Json
  | arr (xs : List Json) : Json
  | obj (fields : List (String × Json)) : Json
deriving Repr

/-- The step within the DIDComm send/receive pipeline
(`PacketStep`, src/packet_logger.rs lines 11-22). -/
inductive PacketStep where
  | PlaintextMessage
  | SignedEnvelope
  | EncryptedPayload
  | EncryptedForward
  | MediatorSend
  | MediatorAck
  | TrustPing
  | TrustPong
  | MessagePickup
  | MessageDelivery
deriving DecidableEq, Repr

/-- Human-readable label for the frontend badge
(`PacketStep::label`, src/packet_logger.rs lines 26-39). -/
def PacketStep.label : PacketStep → String
  | .PlaintextMessage => "① Plaintext Message"
  | .SignedEnvelope => "② Signed Envelope"
  | .EncryptedPayload => "③ Encrypted Payload"
  | .EncryptedForward => "④ Forward Envelope"
  | .MediatorSend => "⑤ Mediator Send"
  | .MediatorAck => "⑤ Mediator ACK"
  | .TrustPing => "① Trust Ping"
  | .TrustPong => "② Trust Pong"
  | .MessagePickup => "⑥ Message Pickup"
  | .MessageDelivery => "⑥ Message Delivery"

/-- CSS colour class hint (`PacketStep::color`, src/packet_logger.rs lines 42-52). -/
def PacketStep.color : PacketStep → String
  | .PlaintextMessage => "blue"
  | .SignedEnvelope => "yellow"
  | .EncryptedPayload => "red"
  | .EncryptedForward => "red"
  | .MediatorSend => "orange"
  | .MediatorAck => "green"
  | .TrustPing => "purple"
  | .TrustPong => "purple"
  | .MessagePickup => "green"
  | .MessageDelivery => "green"

/-- Direction of the packet relative to the demo server
(`PacketDirection`, src/packet_logger.rs lines 58-61). -/
inductive PacketDirection where
  | Outbound
  | Inbound
deriving DecidableEq, Repr

/-- A single packet event emitted to the frontend
(`PacketEvent`, src/packet_logger.rs lines 65-83).
`from` and `to` are reserved tokens in this Lean setup, so those fields
are spelled `from_` and `to_`. -/
structure PacketEvent where
  id : String
  timestamp : String
  direction : PacketDirection
  from_ : String
  to_ : String
  from_alias : Option String
  to_alias : Option String
  step : PacketStep
  label : String
  color : String
  raw_json : Json
  correlation_id : Option String
deriving Repr

/-- `PacketEvent::new` (src/packet_logger.rs lines 86-110).  The freshly
generated `Uuid::new_v4()` and `Utc::now().to_rfc3339()` are passed in as
`id` and `timestamp`. -/
def PacketEvent.new (id timestamp : String) (direction : PacketDirection)
    (from_ to_ : String) (step : PacketStep) (raw_json : Json)
    (correlation_id : Option String) : PacketEvent :=
  { id := id
    timestamp := timestamp
    direction := direction
    from_ := from_
    to_ := to_
    from_alias := none
    to_alias := none
    step := step
    label := step.label
    color := step.color
    raw_json := raw_json
    correlation_id := correlation_id }

/-- `PacketEvent::with_aliases` (src/packet_logger.rs lines 113-117). -/
def PacketEvent.with_aliases (e : PacketEvent) (from_alias to_alias : String) :
    PacketEvent :=
  { e with from_alias := some from_alias, to_alias := some to_alias }

/-- Public identity information exposed to the frontend
(`IdentityInfo`, src/identity.rs lines 9-14).  `alias` is a reserved
word in this Lean setup, so the field is spelled `alias_`. -/
structure IdentityInfo where
  alias_ : String
  did : String
  mediator_did : Option String
  key_types : List String
deriving Repr

/-- Shared application state (`AppState`, src/mediator.rs lines 20-38).
The `Arc<ATM>`/`Arc<TDK>` collaborator handles and the `Arc<ATMProfile>`
profile handles are opaque to the flows; profiles are abstracted as
string identifiers that the flows pass through unchanged. -/
structure AppState where
  alice_profile : String
  bob_profile : String
  alice_info : IdentityInfo
  bob_info : IdentityInfo
  alice_mediator_did : String
  bob_mediator_did : String
deriving Repr

/-- The broadcast `packet_tx` endpoint (`tokio::sync::broadcast::Sender`).
`send` returns `Result<usize, SendError>` — `Ok` with the receiver count,
or an error when no receiver exists; every flow discards this result
(`let _ = state.packet_tx.send(evt)`). -/
structure Bus where
  send : PacketEvent → Except String Nat

/-- The ambient nondeterminism of one flow invocation: the
`Uuid::new_v4()` correlation id and message id drawn at the start, the
per-event `Uuid::new_v4()` ids and `Utc::now()` timestamps (indexed by
event creation order), and the `SystemTime::now()` epoch seconds. -/
structure Gen where
  correlation_id : String
  msg_id : String
  eid : Nat → String
  ets : Nat → String
  now : Nat

/-- The arguments the send flow passes to the external
`Message::build(..).to(..).from(..).created_time(..).expires_time(..)`
builder (src/flows/send_message.rs lines 43-52).  `type` is a Lean
keyword, so that field is spelled `type_`. -/
structure MessageParams where
  id : String
  type_ : String
  body : Json
  to_ : String
  from_ : String
  created_time : Nat
  expires_time : Nat
deriving Repr

/-- Outcomes of the external collaborator calls made by the send flow,
plus the `serde` (de)serialisations the flow does not compute itself:
`serialize_msg` is `serde_json::to_value` on the externally built
message (`none` when serialisation fails, triggering the
`{"error": "serialisation failed"}` fallback of line 56), and `parse` is
`serde_json::from_str` (`none` when parsing fails, triggering the
`{"raw": ...}` fallback). -/
structure SendEnv where
  serialize_msg : MessageParams → Option Json
  parse : String → Option Json
  pack_encrypted : Except String String
  forward_message : Except String (String × String)
  dispatch : Except String String
  live_stream_get : Except String (Option Json)

/-- Rust's `str::to_lowercase()`, rendered as a per-character lowercase
map so that it evaluates inside the kernel. -/
def lowercase (s : String) : String := ⟨s.data.map Char.toLower⟩

/-- Rust's `str::trim().is_empty()`: the string contains nothing but
whitespace. -/
def trimIsEmpty (s : String) : Bool := s.toList.all (fun c => c.isWhitespace)

/-- Resolve aliases to
(sender_profile, recipient_profile, sender_did, recipient_did, recipient_mediator_did)
(`resolve_profiles`, src/flows/send_message.rs lines 229-258). -/
def resolve_profiles (state : AppState) (from_ to_ : String) :
    Except String (String × String × String × String × String) :=
  let from_lower := lowercase from_
  let to_lower := lowercase to_
  match (if from_lower = "alice" then
           some (state.alice_profile, state.alice_info.did)
         else if from_lower = "bob" then
           some (state.bob_profile, state.bob_info.did)
         else none) with
  | none => .error ("Unknown sender: " ++ from_)
  | some (sender_profile, sender_did) =>
    if to_lower = "alice" then
      .ok (sender_profile, state.alice_profile, sender_did,
           state.alice_info.did, state.alice_mediator_did)
    else if to_lower = "bob" then
      .ok (sender_profile, state.bob_profile, sender_did,
           state.bob_info.did, state.bob_mediator_did)
    else
      .error ("Unknown recipient: " ++ to_)

/-- Execute the full send flow (`send_message`,
src/flows/send_message.rs lines 19-226).  Returns the chronological list
of events handed to `packet_tx.send`, paired with the Rust function's
`Result<Vec<PacketEvent>, String>`. -/
def send_message (state : AppState) (env : SendEnv) (g : Gen) (bus : Bus)
    (from_alias to_alias body_text : String) :
    List PacketEvent × Except String (List PacketEvent) :=
  match resolve_profiles state from_alias to_alias with
  | .error e => ([], .error e)
  | .ok (_sender_profile, _recipient_profile, sender_did, recipient_did,
         recipient_mediator_did) =>
    let correlation_id := g.correlation_id
    -- Step 1: build plaintext message (Message::build is the external
    -- toolkit; the fresh Uuid::new_v4 id is g.msg_id)
    let now := g.now
    let msg : MessageParams :=
      { id := g.msg_id
        type_ := "https://didcomm.org/basicmessage/2.0/message"
        body := Json.obj [("content", Json.str body_text)]
        to_ := recipient_did
        from_ := sender_did
        created_time := now
        expires_time := now + 300 }
    let msg_id := msg.id
    let plaintext_json :=
      (env.serialize_msg msg).getD
        (Json.obj [("error", Json.str "serialisation failed")])
    let evt1 := PacketEvent.new (g.eid 0) (g.ets 0) .Outbound sender_did
      recipient_did .PlaintextMessage plaintext_json (some correlation_id)
    let _ := bus.send evt1
    -- Step 2: pack encrypted + signed
    match env.pack_encrypted with
    | .error e => ([evt1], .error ("pack_encrypted failed: " ++ e))
    | .ok packed =>
      let encrypted_json :=
        (env.parse packed).getD (Json.obj [("raw", Json.str packed)])
      let evt2 := PacketEvent.new (g.eid 1) (g.ets 1) .Outbound sender_did
        recipient_did .EncryptedPayload encrypted_json (some correlation_id)
      let _ := bus.send evt2
      -- Step 3: wrap in forward envelope for the mediator
      match env.forward_message with
      | .error e =>
          ([evt1, evt2], .error ("forward_message failed: " ++ e))
      | .ok (_forward_id, forward_msg) =>
        let forward_json :=
          (env.parse forward_msg).getD (Json.obj [("raw", Json.str forward_msg)])
        let evt3 := PacketEvent.new (g.eid 2) (g.ets 2) .Outbound sender_did
          recipient_mediator_did .EncryptedForward forward_json (some correlation_id)
        let _ := bus.send evt3
        -- Step 4: send to mediator (the MediatorSend event is published
        -- before the dispatch call)
        let evt4 := PacketEvent.new (g.eid 3) (g.ets 3) .Outbound sender_did
          "mediator" .MediatorSend
          (Json.obj [("msg_id", Json.str msg_id),
                     ("size_bytes", Json.num forward_msg.utf8ByteSize)])
          (some correlation_id)
        let _ := bus.send evt4
        match env.dispatch with
        | .error e =>
            ([evt1, evt2, evt3, evt4], .error ("send_message failed: " ++ e))
        | .ok response =>
          let evt5 := PacketEvent.new (g.eid 4) (g.ets 4) .Inbound "mediator"
            sender_did .MediatorAck
            (Json.obj [("status", Json.str "stored"),
                       ("response", Json.str response)])
            (some correlation_id)
          let _ := bus.send evt5
          -- Step 5: recipient picks up via WebSocket live stream (the
          -- MessagePickup event is published before the pickup call)
          let evt6 := PacketEvent.new (g.eid 5) (g.ets 5) .Inbound "mediator"
            recipient_did .MessagePickup
            (Json.obj [("msg_id", Json.str msg_id),
                       ("waiting", Json.bool true)])
            (some correlation_id)
          let _ := bus.send evt6
          let evt7 :=
            match env.live_stream_get with
            | .ok (some delivery_json) =>
                PacketEvent.new (g.eid 6) (g.ets 6) .Inbound sender_did
                  recipient_did .MessageDelivery delivery_json
                  (some correlation_id)
            | .ok none =>
                PacketEvent.new (g.eid 6) (g.ets 6) .Inbound "mediator"
                  recipient_did .MessageDelivery
                  (Json.obj [("status", Json.str "timeout"),
                             ("msg_id", Json.str msg_id)])
                  (some correlation_id)
            | .error e =>
                PacketEvent.new (g.eid 6) (g.ets 6) .Inbound "mediator"
                  recipient_did .MessageDelivery
                  (Json.obj [("error", Json.str e)])
                  (some correlation_id)
          let _ := bus.send evt7
          ([evt1, evt2, evt3, evt4, evt5, evt6, evt7],
           .ok [evt1, evt2, evt3, evt4, evt5, evt6, evt7])

/-- Outcomes of the external collaborator calls made by the trust-ping
flow: `send_ping` yields the response's `(message_hash, message_id)`
pair, and `live_stream_get` yields the serialised pong message (with the
`{"id": ...}` fallback of line 97 already applied), `none` on timeout,
or the pickup error. -/
structure PingEnv where
  send_ping : Except String (String × String)
  live_stream_get : Except String (Option Json)

/-- Resolve the ping sender and target
(the inline match of `trust_ping`, src/flows/trust_ping.rs lines 26-44),
returning (sender_profile, sender_did, target_did). -/
def ping_resolve (state : AppState) (from_alias to_alias : String) :
    Except String (String × String × String) :=
  if lowercase from_alias = "alice" then
    if lowercase to_alias = "bob" then
      .ok (state.alice_profile, state.alice_info.did, state.bob_info.did)
    else if lowercase to_alias = "mediator" then
      .ok (state.alice_profile, state.alice_info.did, state.alice_mediator_did)
    else
      .error ("Unknown ping target: " ++ to_alias)
  else if lowercase from_alias = "bob" then
    if lowercase to_alias = "alice" then
      .ok (state.bob_profile, state.bob_info.did, state.alice_info.did)
    else if lowercase to_alias = "mediator" then
      .ok (state.bob_profile, state.bob_info.did, state.bob_mediator_did)
    else
      .error ("Unknown ping target: " ++ to_alias)
  else
    .error ("Unknown sender: " ++ from_alias)

/-- Send a trust-ping and wait for the pong (`trust_ping`,
src/flows/trust_ping.rs lines 16-139).  Returns the chronological list
of events handed to `packet_tx.send`, paired with the Rust function's
`Result<Vec<PacketEvent>, String>`. -/
def trust_ping (state : AppState) (env : PingEnv) (g : Gen) (bus : Bus)
    (from_alias to_alias : String) :
    List PacketEvent × Except String (List PacketEvent) :=
  match ping_resolve state from_alias to_alias with
  | .error e => ([], .error e)
  | .ok (_sender_profile, sender_did, target_did) =>
    let correlation_id := g.correlation_id
    -- Step 1: send ping (the TrustPing event is published before the call)
    let ping_evt := PacketEvent.new (g.eid 0) (g.ets 0) .Outbound sender_did
      target_did .TrustPing
      (Json.obj [("type", Json.str "https://didcomm.org/trust-ping/2.0/ping"),
                 ("from", Json.str sender_did),
                 ("to", Json.str target_did),
                 ("body", Json.obj [("response_requested", Json.bool true)])])
      (some correlation_id)
    let _ := bus.send ping_evt
    match env.send_ping with
    | .error e => ([ping_evt], .error ("send_ping failed: " ++ e))
    | .ok (message_hash, message_id) =>
      let ack_evt := PacketEvent.new (g.eid 1) (g.ets 1) .Inbound "mediator"
        sender_did .MediatorAck
        (Json.obj [("message_hash", Json.str message_hash),
                   ("message_id", Json.str message_id)])
        (some correlation_id)
      let _ := bus.send ack_evt
      -- Step 2: receive pong via live stream
      let pong_evt :=
        match env.live_stream_get with
        | .ok (some pong_json) =>
            PacketEvent.new (g.eid 2) (g.ets 2) .Inbound target_did sender_did
              .TrustPong pong_json (some correlation_id)
        | .ok none =>
            PacketEvent.new (g.eid 2) (g.ets 2) .Inbound target_did sender_did
              .TrustPong (Json.obj [("status", Json.str "timeout")])
              (some correlation_id)
        | .error e =>
            PacketEvent.new (g.eid 2) (g.ets 2) .Inbound target_did sender_did
              .TrustPong (Json.obj [("error", Json.str e)])
              (some correlation_id)
      let _ := bus.send pong_evt
      ([ping_evt, ack_evt, pong_evt], .ok [ping_evt, ack_evt, pong_evt])

/-- The body and status of an HTTP handler response (src/api.rs):
a 200 OK json with `status`, `events_count` and `correlation_id`, or an
`ApiError` json under a 400 (client fault) / 500 (server fault) status
code, with its optional failing-step name. -/
inductive ApiResponse where
  | ok (status : String) (events_count : Nat) (correlation_id : Option String)
  | clientError (error : String) (step : Option String)
  | serverError (error : String) (step : Option String)
deriving DecidableEq, Repr

/-- The `POST /api/messages/send` handler (`send_message`,
src/api.rs lines 77-100), instrumented with the list of events the
wrapped flow published. -/
def api_send_message (state : AppState) (env : SendEnv) (g : Gen) (bus : Bus)
    (req_from req_to req_body : String) : List PacketEvent × ApiResponse :=
  if trimIsEmpty req_body then
    ([], .clientError "body cannot be empty" none)
  else
    match send_message state env g bus req_from req_to req_body with
    | (published, .ok events) =>
        (published,
         .ok "delivered" events.length
           ((events.head?).bind (fun e => e.correlation_id)))
    | (published, .error e) =>
        (published, .serverError e (some "send_message"))

/-- The `POST /api/ping` handler (`send_ping`, src/api.rs lines
104-123), instrumented with the list of events the wrapped flow
published. -/
def api_send_ping (state : AppState) (env : PingEnv) (g : Gen) (bus : Bus)
    (req_from req_to : String) : List PacketEvent × ApiResponse :=
  match trust_ping state env g bus req_from req_to with
  | (published, .ok events) =>
      (published,
       .ok "pong_received" events.length
         ((events.head?).bind (fun e => e.correlation_id)))
  | (published, .error e) =>
      (published, .serverError e (some "trust_ping"))

/-- Alias resolution of the `GET /api/messages/{alias}` handler
(`fetch_messages`, src/api.rs lines 133-137): the profile whose stored
messages are fetched, or the 400 `Unknown alias` rejection. -/
def fetch_resolve (state : AppState) (alias_ : String) : Except String String :=
  if lowercase alias_ = "alice" then .ok state.alice_profile
  else if lowercase alias_ = "bob" then .ok state.bob_profile
  else .error ("Unknown alias: " ++ alias_)

/-- The `POST /api/reset` handler (`reset_demo`, src/api.rs lines
192-207): publishes one synthetic reset event through `packet_tx` and
answers `{"status":"reset"}`. -/
def reset_demo (g : Gen) (bus : Bus) : List PacketEvent × Json :=
  let evt := PacketEvent.new (g.eid 0) (g.ets 0) .Outbound "system" "all"
    .PlaintextMessage (Json.obj [("action", Json.str "reset")]) none
  let _ := bus.send evt
  ([evt], Json.obj [("status", Json.str "reset")])

/-! ### Concrete fixtures used to evaluate the model on closed inputs -/

/-- A concrete application state with the two demo identities. -/
def stEx : AppState :=
  { alice_profile := "alice-profile"
    bob_profile := "bob-profile"
    alice_info :=
      { alias_ := "alice", did := "did:peer:2.alice",
        mediator_did := some "did:peer:2.med-alice",
        key_types := ["P-256", "Ed25519", "X25519", "secp256k1"] }
    bob_info :=
      { alias_ := "bob", did := "did:peer:2.bob",
        mediator_did := some "did:peer:2.med-bob",
        key_types := ["P-256", "Ed25519", "X25519", "secp256k1"] }
    alice_mediator_did := "did:peer:2.med-alice"
    bob_mediator_did := "did:peer:2.med-bob" }

/-- A concrete draw of the per-invocation nondeterminism. -/
def genEx : Gen :=
  { correlation_id := "corr-1"
    msg_id := "msg-1"
    eid := fun n => "evt-" ++ toString n
    ets := fun n => "2026-01-01T00:00:00." ++ toString n ++ "Z"
    now := 1767225600 }

/-- A second draw, with a different correlation id. -/
def genEx2 : Gen :=
  { correlation_id := "corr-2"
    msg_id := "msg-2"
    eid := fun n => "evt2-" ++ toString n
    ets := fun n => "2026-01-01T00:00:01." ++ toString n ++ "Z"
    now := 1767225601 }

/-- A bus with one healthy receiver. -/
def busEx : Bus := { send := fun _ => .ok 1 }

/-- A bus whose sends all fail (no receiver subscribed). -/
def busNone : Bus := { send := fun _ => .error "channel closed" }

/-- An environment in which every external collaborator call succeeds. -/
def sendEnvOk : SendEnv :=
  { serialize_msg := fun p => some (Json.obj [("id", Json.str p.id)])
    parse := fun _ => none
    pack_encrypted := .ok "packed-bytes"
    forward_message := .ok ("fwd-1", "forward-bytes")
    dispatch := .ok "SuccessResponse"
    live_stream_get := .ok (some (Json.str "delivered-msg")) }

/-- An environment in which `pack_encrypted` fails. -/
def sendEnvPackErr : SendEnv :=
  { sendEnvOk with pack_encrypted := .error "no key agreement" }

/-- A ping environment in which the ping is sent but the pong times out. -/
def pingEnvTimeout : PingEnv :=
  { send_ping := .ok ("hash-1", "mid-1")
    live_stream_get := .ok none }

/-- A ping environment in which `send_ping` itself fails. -/
def pingEnvSendErr : PingEnv :=
  { send_ping := .error "mediator unreachable"
    live_stream_get := .ok none }

/-! ### Theorems -/

/-- C4: every Event Record constructed by `PacketEvent::new` stores
`label = PacketStep::label(step)` and `color = PacketStep::color(step)`
for its own `step` field, whatever the payload, direction or caller; in
particular every record built with step `TrustPing` has label
"① Trust Ping" and color "purple". -/
theorem packet_event_label_color_pure_in_step :
    (∀ id ts dir f t step raw corr,
       (PacketEvent.new id ts dir f t step raw corr).label =
         PacketStep.label (PacketEvent.new id ts dir f t step raw corr).step ∧
       (PacketEvent.new id ts dir f t step raw corr).color =
         PacketStep.color (PacketEvent.new id ts dir f t step raw corr).step ∧
       (PacketEvent.new id ts dir f t step raw corr).step = step) ∧
    (∀ id ts dir f t raw corr,
       (PacketEvent.new id ts dir f t .TrustPing raw corr).label =
         "① Trust Ping" ∧
       (PacketEvent.new id ts dir f t .TrustPing raw corr).color = "purple") :=
  ⟨fun _ _ _ _ _ _ _ _ => ⟨rfl, rfl, rfl⟩, fun _ _ _ _ _ _ _ => ⟨rfl, rfl⟩⟩

/-- C6: a send trigger whose body is empty after trimming is rejected
with the client-fault response before the flow runs: no event is
published and the response is the 400 `body cannot be empty` error. -/
theorem empty_body_rejected_before_flow
    (state : AppState) (env : SendEnv) (g : Gen) (bus : Bus)
    (req_from req_to req_body : String) (h : trimIsEmpty req_body = true) :
    api_send_message state env g bus req_from req_to req_body =
      ([], .clientError "body cannot be empty" none) := by
  simp only [api_send_message, h, if_pos]

/-- Witness for C6 at the concrete whitespace-only body "   ". -/
theorem empty_body_rejected_before_flow_witness :
    api_send_message stEx sendEnvOk genEx busEx "alice" "bob" "   " =
      ([], .clientError "body cannot be empty" none) :=
  empty_body_rejected_before_flow stEx sendEnvOk genEx busEx "alice" "bob" "   "
    rfl

/-- C7: every `packet_tx.send` result is discarded, so a flow's
published events and return value are identical for any two buses —
in particular whether subscribers exist (`busEx`) or not (`busNone`). -/
theorem publish_result_never_affects_flow :
    (∀ state env g bus bus2 from_alias to_alias body,
       send_message state env g bus from_alias to_alias body =
         send_message state env g bus2 from_alias to_alias body) ∧
    (∀ state env g bus bus2 from_alias to_alias,
       trust_ping state env g bus from_alias to_alias =
         trust_ping state env g bus2 from_alias to_alias) ∧
    (∀ g bus bus2, reset_demo g bus = reset_demo g bus2) :=
  ⟨fun _ _ _ _ _ _ _ _ => rfl, fun _ _ _ _ _ _ _ => rfl, fun _ _ _ => rfl⟩

/-- C9: a reset trigger publishes exactly one event through the packet
bus, and that event has no correlation id, step `PlaintextMessage`,
payload `{"action":"reset"}`, direction `Outbound` and from `"system"`;
the handler answers `{"status":"reset"}`. -/
theorem reset_publishes_single_reset_event (g : Gen) (bus : Bus) :
    ∃ evt, reset_demo g bus = ([evt], Json.obj [("status", Json.str "reset")]) ∧
      evt.correlation_id = none ∧
      evt.step = .PlaintextMessage ∧
      evt.raw_json = Json.obj [("action", Json.str "reset")] ∧
      evt.direction = .Outbound ∧
      evt.from_ = "system" :=
  ⟨_, rfl, rfl, rfl, rfl, rfl, rfl⟩

/-- C2: an unknown sender or recipient alias makes either flow return
the resolution error with zero events published: a flow publishes
nothing whenever its alias resolution fails, and resolution does fail
whenever the lowered sender alias is outside {alice, bob} or the lowered
recipient alias is outside the flow's accepted set ({alice, bob} for
send, {bob, alice, mediator} for ping). -/
theorem unknown_alias_aborts_with_zero_events :
    (∀ state env g bus from_ to_ body e,
       resolve_profiles state from_ to_ = .error e →
       send_message state env g bus from_ to_ body = ([], .error e)) ∧
    (∀ state from_ to_,
       ((lowercase from_ ≠ "alice" ∧ lowercase from_ ≠ "bob") ∨
        (lowercase to_ ≠ "alice" ∧ lowercase to_ ≠ "bob")) →
       ∃ e, resolve_profiles state from_ to_ = .error e) ∧
    (∀ state env g bus from_ to_ e,
       ping_resolve state from_ to_ = .error e →
       trust_ping state env g bus from_ to_ = ([], .error e)) ∧
    (∀ state from_ to_,
       ((lowercase from_ ≠ "alice" ∧ lowercase from_ ≠ "bob") ∨
        (lowercase to_ ≠ "alice" ∧ lowercase to_ ≠ "bob" ∧
         lowercase to_ ≠ "mediator")) →
       ∃ e, ping_resolve state from_ to_ = .error e) := by
  refine ⟨?_, ?_, ?_, ?_⟩
  · intro state env g bus from_ to_ body e h
    simp only [send_message, h]
  · intro state from_ to_ h
    unfold resolve_profiles
    rcases h with ⟨h1, h2⟩ | ⟨h1, h2⟩
    · simp [h1, h2]
    · by_cases hf1 : lowercase from_ = "alice" <;>
        by_cases hf2 : lowercase from_ = "bob" <;>
        simp [hf1, hf2, h1, h2]
  · intro state env g bus from_ to_ e h
    simp only [trust_ping, h]
  · intro state from_ to_ h
    unfold ping_resolve
    rcases h with ⟨h1, h2⟩ | ⟨h1, h2, h3⟩
    · simp [h1, h2]
    · by_cases hf1 : lowercase from_ = "alice" <;>
        by_cases hf2 : lowercase from_ = "bob" <;>
        simp [hf1, hf2, h1, h2, h3]

/-- Witness for C2: the unknown sender "carol" makes the send flow
return the resolution error with an empty published-event list. -/
theorem unknown_alias_aborts_with_zero_events_witness :
    send_message stEx sendEnvOk genEx busEx "carol" "bob" "hi" =
      ([], .error "Unknown sender: carol") :=
  unknown_alias_aborts_with_zero_events.1 stEx sendEnvOk genEx busEx
    "carol" "bob" "hi" "Unknown sender: carol" rfl

/-- C5: a failing mandatory collaborator call (pack, forward or
dispatch in the send flow; the ping send in the trust-ping flow) aborts
the enclosing flow with an error that names the failing step, and the
events already published before the abort stay published. -/
theorem collaborator_failure_aborts_flow :
    (∀ state env g bus from_ to_ body r e,
       resolve_profiles state from_ to_ = .ok r →
       env.pack_encrypted = .error e →
       ∃ evt1,
         send_message state env g bus from_ to_ body =
           ([evt1], .error ("pack_encrypted failed: " ++ e)) ∧
         evt1.step = .PlaintextMessage) ∧
    (∀ state env g bus from_ to_ body r packed e,
       resolve_profiles state from_ to_ = .ok r →
       env.pack_encrypted = .ok packed →
       env.forward_message = .error e →
       ∃ evt1 evt2,
         send_message state env g bus from_ to_ body =
           ([evt1, evt2], .error ("forward_message failed: " ++ e)) ∧
         evt1.step = .PlaintextMessage ∧ evt2.step = .EncryptedPayload) ∧
    (∀ state env g bus from_ to_ body r packed fid fmsg e,
       resolve_profiles state from_ to_ = .ok r →
       env.pack_encrypted = .ok packed →
       env.forward_message = .ok (fid, fmsg) →
       env.dispatch = .error e →
       ∃ evt1 evt2 evt3 evt4,
         send_message state env g bus from_ to_ body =
           ([evt1, evt2, evt3, evt4],
            .error ("send_message failed: " ++ e)) ∧
         evt1.step = .PlaintextMessage ∧ evt2.step = .EncryptedPayload ∧
         evt3.step = .EncryptedForward ∧ evt4.step = .MediatorSend) ∧
    (∀ state env g bus from_ to_ r e,
       ping_resolve state from_ to_ = .ok r →
       env.send_ping = .error e →
       ∃ pev,
         trust_ping state env g bus from_ to_ =
           ([pev], .error ("send_ping failed: " ++ e)) ∧
         pev.step = .TrustPing) := by
  refine ⟨?_, ?_, ?_, ?_⟩
  · intro state env g bus from_ to_ body r e hr hp
    obtain ⟨sp, rp, sd, rd, rmd⟩ := r
    simp only [send_message, hr, hp]
    exact ⟨_, rfl, rfl⟩
  · intro state env g bus from_ to_ body r packed e hr hp hf
    obtain ⟨sp, rp, sd, rd, rmd⟩ := r
    simp only [send_message, hr, hp, hf]
    exact ⟨_, _, rfl, rfl, rfl⟩
  · intro state env g bus from_ to_ body r packed fid fmsg e hr hp hf hd
    obtain ⟨sp, rp, sd, rd, rmd⟩ := r
    simp only [send_message, hr, hp, hf, hd]
    exact ⟨_, _, _, _, rfl, rfl, rfl, rfl, rfl⟩
  · intro state env g bus from_ to_ r e hr hs
    obtain ⟨sp, sd, td⟩ := r
    simp only [trust_ping, hr, hs]
    exact ⟨_, rfl, rfl⟩

/-- Witness for C5: a concrete `pack_encrypted` failure aborts the send
flow after the PlaintextMessage record was already published. -/
theorem collaborator_failure_aborts_flow_witness :
    (send_message stEx sendEnvPackErr genEx busEx "alice" "bob" "hi").2 =
      .error "pack_encrypted failed: no key agreement" ∧
    ((send_message stEx sendEnvPackErr genEx busEx "alice" "bob" "hi").1.map
      PacketEvent.step) = [.PlaintextMessage] := by
  obtain ⟨evt1, heq, hstep⟩ :=
    collaborator_failure_aborts_flow.1 stEx sendEnvPackErr genEx busEx
      "alice" "bob" "hi"
      ("alice-profile", "bob-profile", "did:peer:2.alice", "did:peer:2.bob",
       "did:peer:2.med-bob")
      "no key agreement" rfl rfl
  rw [heq]
  simp [hstep]

/-- Inversion helper: whenever the send flow returns `Ok events`, the
published trace equals `events`, every event carries the invocation's
correlation id, the step sequence is the full seven-step pipeline, and
the response-facing head correlation lookup yields the correlation id. -/
theorem send_message_ok_inv (state : AppState) (env : SendEnv) (g : Gen)
    (bus : Bus) (from_ to_ body : String) (events : List PacketEvent)
    (h : (send_message state env g bus from_ to_ body).2 = .ok events) :
    (send_message state env g bus from_ to_ body).1 = events ∧
    (∀ e ∈ events, e.correlation_id = some g.correlation_id) ∧
    events.map PacketEvent.step =
      [.PlaintextMessage, .EncryptedPayload, .EncryptedForward,
       .MediatorSend, .MediatorAck, .MessagePickup, .MessageDelivery] ∧
    (events.head?.bind PacketEvent.correlation_id = some g.correlation_id) := by
  cases hres : resolve_profiles state from_ to_ with
  | error e =>
    simp only [send_message, hres] at h
    exact Except.noConfusion h
  | ok r =>
    obtain ⟨sp, rp, sd, rd, rmd⟩ := r
    cases hp : env.pack_encrypted with
    | error e =>
      simp only [send_message, hres, hp] at h
      exact Except.noConfusion h
    | ok packed =>
      cases hf : env.forward_message with
      | error e =>
        simp only [send_message, hres, hp, hf] at h
        exact Except.noConfusion h
      | ok pr =>
        obtain ⟨fid, fmsg⟩ := pr
        cases hd : env.dispatch with
        | error e =>
          simp only [send_message, hres, hp, hf, hd] at h
          exact Except.noConfusion h
        | ok resp =>
          cases hl : env.live_stream_get with
          | error e =>
            simp only [send_message, hres, hp, hf, hd, hl,
              Except.ok.injEq] at h
            subst h
            refine ⟨by simp [send_message, hres, hp, hf, hd, hl], ?_, ?_, ?_⟩ <;>
              simp [PacketEvent.new]
          | ok lsg =>
            cases lsg with
            | none =>
              simp only [send_message, hres, hp, hf, hd, hl,
                Except.ok.injEq] at h
              subst h
              refine ⟨by simp [send_message, hres, hp, hf, hd, hl], ?_, ?_, ?_⟩ <;>
                simp [PacketEvent.new]
            | some dj =>
              simp only [send_message, hres, hp, hf, hd, hl,
                Except.ok.injEq] at h
              subst h
              refine ⟨by simp [send_message, hres, hp, hf, hd, hl], ?_, ?_, ?_⟩ <;>
                simp [PacketEvent.new]

/-- Inversion helper: whenever the trust-ping flow returns `Ok events`,
the published trace equals `events`, every event carries the
invocation's correlation id, the step sequence is TrustPing →
MediatorAck → TrustPong, and the head correlation lookup yields the
correlation id. -/
theorem trust_ping_ok_inv (state : AppState) (env : PingEnv) (g : Gen)
    (bus : Bus) (from_ to_ : String) (events : List PacketEvent)
    (h : (trust_ping state env g bus from_ to_).2 = .ok events) :
    (trust_ping state env g bus from_ to_).1 = events ∧
    (∀ e ∈ events, e.correlation_id = some g.correlation_id) ∧
    events.map PacketEvent.step = [.TrustPing, .MediatorAck, .TrustPong] ∧
    (events.head?.bind PacketEvent.correlation_id = some g.correlation_id) := by
  cases hres : ping_resolve state from_ to_ with
  | error e =>
    simp only [trust_ping, hres] at h
    exact Except.noConfusion h
  | ok r =>
    obtain ⟨sp, sd, td⟩ := r
    cases hs : env.send_ping with
    | error e =>
      simp only [trust_ping, hres, hs] at h
      exact Except.noConfusion h
    | ok pr =>
      obtain ⟨hash, mid⟩ := pr
      cases hl : env.live_stream_get with
      | error e =>
        simp only [trust_ping, hres, hs, hl, Except.ok.injEq] at h
        subst h
        refine ⟨by simp [trust_ping, hres, hs, hl], ?_, ?_, ?_⟩ <;>
          simp [PacketEvent.new]
      | ok lsg =>
        cases lsg with
        | none =>
          simp only [trust_ping, hres, hs, hl, Except.ok.injEq] at h
          subst h
          refine ⟨by simp [trust_ping, hres, hs, hl], ?_, ?_, ?_⟩ <;>
            simp [PacketEvent.new]
        | some pj =>
          simp only [trust_ping, hres, hs, hl, Except.ok.injEq] at h
          subst h
          refine ⟨by simp [trust_ping, hres, hs, hl], ?_, ?_, ?_⟩ <;>
            simp [PacketEvent.new]

/-- C3: once alias resolution and the ping send succeed, the trust-ping
flow always returns `Ok` with exactly the three records TrustPing,
MediatorAck, TrustPong — it does so for all three pickup outcomes (pong
received, timeout, pickup error), with the timeout outcome carrying the
`{"status":"timeout"}` payload and the handler answering a success
response; only a failure of the ping send itself produces an error. -/
theorem ping_send_success_three_records :
    (∀ state env g bus from_ to_ r hash mid,
       ping_resolve state from_ to_ = .ok r →
       env.send_ping = .ok (hash, mid) →
       ∃ ping ack pong,
         trust_ping state env g bus from_ to_ =
           ([ping, ack, pong], .ok [ping, ack, pong]) ∧
         ping.step = .TrustPing ∧ ack.step = .MediatorAck ∧
         pong.step = .TrustPong ∧
         (env.live_stream_get = .ok none →
           pong.raw_json = Json.obj [("status", Json.str "timeout")])) ∧
    (∀ state env g bus from_ to_ r hash mid,
       ping_resolve state from_ to_ = .ok r →
       env.send_ping = .ok (hash, mid) →
       (api_send_ping state env g bus from_ to_).2 =
         .ok "pong_received" 3 (some g.correlation_id)) ∧
    (∀ state env g bus from_ to_ r e,
       ping_resolve state from_ to_ = .ok r →
       env.send_ping = .error e →
       (trust_ping state env g bus from_ to_).2 =
         .error ("send_ping failed: " ++ e)) := by
  refine ⟨?_, ?_, ?_⟩
  · intro state env g bus from_ to_ r hash mid hr hs
    obtain ⟨sp, sd, td⟩ := r
    cases hl : env.live_stream_get with
    | error e =>
      simp only [trust_ping, hr, hs, hl]
      exact ⟨_, _, _, rfl, rfl, rfl, rfl, fun hcon => Except.noConfusion hcon⟩
    | ok lsg =>
      cases lsg with
      | none =>
        simp only [trust_ping, hr, hs, hl]
        exact ⟨_, _, _, rfl, rfl, rfl, rfl, fun _ => rfl⟩
      | some pj =>
        simp only [trust_ping, hr, hs, hl]
        refine ⟨_, _, _, rfl, rfl, rfl, rfl, ?_⟩
        intro hcon
        exact Option.noConfusion (Except.ok.inj hcon)
  · intro state env g bus from_ to_ r hash mid hr hs
    obtain ⟨sp, sd, td⟩ := r
    cases hl : env.live_stream_get with
    | error e =>
      simp [api_send_ping, trust_ping, hr, hs, hl, PacketEvent.new]
    | ok lsg =>
      cases lsg with
      | none => simp [api_send_ping, trust_ping, hr, hs, hl, PacketEvent.new]
      | some pj => simp [api_send_ping, trust_ping, hr, hs, hl, PacketEvent.new]
  · intro state env g bus from_ to_ r e hr hs
    obtain ⟨sp, sd, td⟩ := r
    simp only [trust_ping, hr, hs]

/-- Witness for C3 at the concrete timeout scenario: alice pings bob,
the pong never arrives, and the flow still completes with the three
records and the timeout payload. -/
theorem ping_send_success_three_records_witness :
    ((trust_ping stEx pingEnvTimeout genEx busEx "alice" "bob").1.map
       PacketEvent.step = [.TrustPing, .MediatorAck, .TrustPong]) ∧
    (api_send_ping stEx pingEnvTimeout genEx busEx "alice" "bob").2 =
      .ok "pong_received" 3 (some "corr-1") := by
  obtain ⟨ping, ack, pong, heq, h1, h2, h3, h4⟩ :=
    ping_send_success_three_records.1 stEx pingEnvTimeout genEx busEx
      "alice" "bob"
      ("alice-profile", "did:peer:2.alice", "did:peer:2.bob")
      "hash-1" "mid-1" rfl rfl
  have hresp :=
    ping_send_success_three_records.2.1 stEx pingEnvTimeout genEx busEx
      "alice" "bob"
      ("alice-profile", "did:peer:2.alice", "did:peer:2.bob")
      "hash-1" "mid-1" rfl rfl
  rw [heq]
  exact ⟨by simp [h1, h2, h3], hresp⟩

/-- C8: within one flow invocation every published record carries the
correlation id generated at the start of that invocation, the published
trace equals the returned accumulated list (same order), the send
trigger's success response reports that same correlation id, two
invocations whose generated correlation ids differ share no record
correlation value, and whenever the generated UUID string is non-empty
every record's correlation id is present and non-empty. -/
theorem correlation_id_shared_and_reported :
    (∀ state env g bus from_ to_ body events,
       (send_message state env g bus from_ to_ body).2 = .ok events →
       (send_message state env g bus from_ to_ body).1 = events ∧
       ∀ e ∈ events, e.correlation_id = some g.correlation_id) ∧
    (∀ state env g bus from_ to_ events,
       (trust_ping state env g bus from_ to_).2 = .ok events →
       (trust_ping state env g bus from_ to_).1 = events ∧
       ∀ e ∈ events, e.correlation_id = some g.correlation_id) ∧
    (∀ state env g bus from_ to_ body events,
       trimIsEmpty body = false →
       (send_message state env g bus from_ to_ body).2 = .ok events →
       (api_send_message state env g bus from_ to_ body).2 =
         .ok "delivered" events.length (some g.correlation_id)) ∧
    (∀ state env g bus from_ to_ body events
       state' env' g' bus' from' to' body' events',
       (send_message state env g bus from_ to_ body).2 = .ok events →
       (send_message state' env' g' bus' from' to' body').2 = .ok events' →
       g.correlation_id ≠ g'.correlation_id →
       ∀ e ∈ events, ∀ e' ∈ events',
         e.correlation_id ≠ e'.correlation_id) ∧
    (∀ state env g bus from_ to_ body events,
       g.correlation_id ≠ "" →
       (send_message state env g bus from_ to_ body).2 = .ok events →
       ∀ e ∈ events, e.correlation_id ≠ none ∧ e.correlation_id ≠ some "") := by
  refine ⟨?_, ?_, ?_, ?_, ?_⟩
  · intro state env g bus from_ to_ body events h
    obtain ⟨h1, h2, _, _⟩ :=
      send_message_ok_inv state env g bus from_ to_ body events h
    exact ⟨h1, h2⟩
  · intro state env g bus from_ to_ events h
    obtain ⟨h1, h2, _, _⟩ :=
      trust_ping_ok_inv state env g bus from_ to_ events h
    exact ⟨h1, h2⟩
  · intro state env g bus from_ to_ body events hbody h
    obtain ⟨h1, _, _, h4⟩ :=
      send_message_ok_inv state env g bus from_ to_ body events h
    have hpair : send_message state env g bus from_ to_ body =
        (events, Except.ok events) := by
      rw [Prod.ext_iff]
      exact ⟨h1, h⟩
    simp [api_send_message, hbody, hpair, h4]
  · intro state env g bus from_ to_ body events
      state' env' g' bus' from' to' body' events' h h' hne e he e' he'
    obtain ⟨_, h2, _, _⟩ :=
      send_message_ok_inv state env g bus from_ to_ body events h
    obtain ⟨_, h2', _, _⟩ :=
      send_message_ok_inv state' env' g' bus' from' to' body' events' h'
    rw [h2 e he, h2' e' he']
    intro hcon
    exact hne (Option.some.inj hcon)
  · intro state env g bus from_ to_ body events hcid h e he
    obtain ⟨_, h2, _, _⟩ :=
      send_message_ok_inv state env g bus from_ to_ body events h
    rw [h2 e he]
    exact ⟨Option.noConfusion, fun hcon => hcid (Option.some.inj hcon)⟩

/-- Witness for C8 at a concrete successful send: the published trace
equals the returned list, all seven records carry "corr-1", the
response reports "corr-1", and a second invocation generated with
"corr-2" shares no correlation value with the first. -/
theorem correlation_id_shared_and_reported_witness :
    ((send_message stEx sendEnvOk genEx busEx "alice" "bob" "hi").1 =
       (send_message stEx sendEnvOk genEx busEx "alice" "bob" "hi").2.toOption.getD [] ∧
     ∀ e ∈ (send_message stEx sendEnvOk genEx busEx "alice" "bob" "hi").2.toOption.getD [],
       e.correlation_id = some "corr-1") ∧
    (api_send_message stEx sendEnvOk genEx busEx "alice" "bob" "hi").2 =
      .ok "delivered" 7 (some "corr-1") ∧
    (∀ e ∈ (send_message stEx sendEnvOk genEx busEx "alice" "bob" "hi").2.toOption.getD [],
     ∀ e' ∈ (send_message stEx sendEnvOk genEx2 busEx "alice" "bob" "yo").2.toOption.getD [],
       e.correlation_id ≠ e'.correlation_id) := by
  have h : (send_message stEx sendEnvOk genEx busEx "alice" "bob" "hi").2 =
      .ok ((send_message stEx sendEnvOk genEx busEx "alice" "bob" "hi").2.toOption.getD []) := rfl
  have h' : (send_message stEx sendEnvOk genEx2 busEx "alice" "bob" "yo").2 =
      .ok ((send_message stEx sendEnvOk genEx2 busEx "alice" "bob" "yo").2.toOption.getD []) := rfl
  refine ⟨correlation_id_shared_and_reported.1 stEx sendEnvOk genEx busEx
      "alice" "bob" "hi" _ h, ?_, ?_⟩
  · have := correlation_id_shared_and_reported.2.2.1 stEx sendEnvOk genEx busEx
      "alice" "bob" "hi" _ rfl h
    simpa using this
  · exact correlation_id_shared_and_reported.2.2.2.1 stEx sendEnvOk genEx busEx
      "alice" "bob" "hi" _ stEx sendEnvOk genEx2 busEx "alice" "bob" "yo" _
      h h' (by decide)

/-- C1 counterexample: on the concrete fully-successful send trigger
from "alice" to "bob" with body "hi", the success response reports
`events_count = 7`, not 6, the published trace has 7 records, and its
step sequence is not the claimed 6-step sequence (a MessagePickup
record sits between MediatorAck and MessageDelivery). -/
theorem send_flow_six_records_cex :
    (api_send_message stEx sendEnvOk genEx busEx "alice" "bob" "hi").2 =
      .ok "delivered" 7 (some "corr-1") ∧
    (api_send_message stEx sendEnvOk genEx busEx "alice" "bob" "hi").2 ≠
      .ok "delivered" 6 (some "corr-1") ∧
    (api_send_message stEx sendEnvOk genEx busEx "alice" "bob" "hi").1.length = 7 ∧
    ((api_send_message stEx sendEnvOk genEx busEx "alice" "bob" "hi").1.map
        PacketEvent.step ≠
      [.PlaintextMessage, .EncryptedPayload, .EncryptedForward,
       .MediatorSend, .MediatorAck, .MessageDelivery]) := by
  refine ⟨rfl, by decide, rfl, by decide⟩

/-- C1 (amended): a send trigger with a non-blank body, resolvable
aliases and successful pack/forward/dispatch calls emits exactly 7
ordered records — PlaintextMessage, EncryptedPayload, EncryptedForward,
MediatorSend, MediatorAck, MessagePickup, MessageDelivery — all sharing
the invocation's correlation id (non-empty whenever the generated UUID
string is), ending in a MessageDelivery-kind record, and the HTTP
success response reports `events_count = 7` with that correlation
id. -/
theorem send_flow_emits_seven_records
    (state : AppState) (env : SendEnv) (g : Gen) (bus : Bus)
    (from_ to_ body : String)
    (r : String × String × String × String × String)
    (packed fid fmsg resp : String)
    (hbody : trimIsEmpty body = false)
    (hcid : g.correlation_id ≠ "")
    (hr : resolve_profiles state from_ to_ = .ok r)
    (hp : env.pack_encrypted = .ok packed)
    (hf : env.forward_message = .ok (fid, fmsg))
    (hd : env.dispatch = .ok resp) :
    (api_send_message state env g bus from_ to_ body).2 =
      .ok "delivered" 7 (some g.correlation_id) ∧
    ((api_send_message state env g bus from_ to_ body).1.map
        PacketEvent.step =
      [.PlaintextMessage, .EncryptedPayload, .EncryptedForward,
       .MediatorSend, .MediatorAck, .MessagePickup, .MessageDelivery]) ∧
    (∀ e ∈ (api_send_message state env g bus from_ to_ body).1,
       e.correlation_id = some g.correlation_id ∧
       e.correlation_id ≠ none ∧ e.correlation_id ≠ some "") ∧
    ((api_send_message state env g bus from_ to_ body).1.map
        PacketEvent.step).getLast? = some .MessageDelivery := by
  obtain ⟨sp, rp, sd, rd, rmd⟩ := r
  have hok : ∃ events,
      (send_message state env g bus from_ to_ body).2 = .ok events := by
    cases hl : env.live_stream_get with
    | error e =>
      exact ⟨_, by simp only [send_message, hr, hp, hf, hd, hl]; rfl⟩
    | ok lsg =>
      cases lsg with
      | none =>
        exact ⟨_, by simp only [send_message, hr, hp, hf, hd, hl]; rfl⟩
      | some dj =>
        exact ⟨_, by simp only [send_message, hr, hp, hf, hd, hl]; rfl⟩
  obtain ⟨events, hok⟩ := hok
  obtain ⟨h1, h2, h3, h4⟩ :=
    send_message_ok_inv state env g bus from_ to_ body events hok
  have hpair : send_message state env g bus from_ to_ body =
      (events, Except.ok events) := by
    rw [Prod.ext_iff]
    exact ⟨h1, hok⟩
  have hlen : events.length = 7 := by
    have := congrArg List.length h3
    simpa using this
  have hapi1 : (api_send_message state env g bus from_ to_ body).1 = events := by
    simp [api_send_message, hbody, hpair]
  have hapi2 : (api_send_message state env g bus from_ to_ body).2 =
      .ok "delivered" 7 (some g.correlation_id) := by
    simp [api_send_message, hbody, hpair, h4, hlen]
  refine ⟨hapi2, ?_, ?_, ?_⟩
  · rw [hapi1, h3]
  · rw [hapi1]
    intro e he
    refine ⟨h2 e he, ?_, ?_⟩
    · rw [h2 e he]
      exact Option.noConfusion
    · rw [h2 e he]
      intro hcon
      exact hcid (Option.some.inj hcon)
  · rw [hapi1, h3]
    rfl

/-- Witness for C1's amended theorem at the concrete send alice→bob
"hi" with every collaborator call succeeding. -/
theorem send_flow_emits_seven_records_witness :
    (api_send_message stEx sendEnvOk genEx busEx "alice" "bob" "hi").2 =
      .ok "delivered" 7 (some "corr-1") ∧
    ((api_send_message stEx sendEnvOk genEx busEx "alice" "bob" "hi").1.map
        PacketEvent.step).getLast? = some .MessageDelivery := by
  have h := send_flow_emits_seven_records stEx sendEnvOk genEx busEx
    "alice" "bob" "hi"
    ("alice-profile", "bob-profile", "did:peer:2.alice", "did:peer:2.bob",
     "did:peer:2.med-bob")
    "packed-bytes" "fwd-1" "forward-bytes" "SuccessResponse"
    rfl (by decide) rfl rfl rfl rfl
  exact ⟨h.1, h.2.2.2⟩

/-- C10: alias matching is case-insensitive in both flows and in the
stored-message fetch handler — two inputs with the same lowercase form
resolve to the same successful value (identical profiles, DIDs and
mediator DID), and resolution succeeds exactly when the lowercase form
lies in the accepted alias set of that position ({alice, bob} for send
sender/recipient and for fetch; {bob, mediator} after an alice sender
and {alice, mediator} after a bob sender for ping targets). -/
theorem alias_matching_case_insensitive :
    (∀ state f f' t t', lowercase f = lowercase f' →
       lowercase t = lowercase t' →
       ∀ r, resolve_profiles state f t = .ok r ↔
            resolve_profiles state f' t' = .ok r) ∧
    (∀ state f t, (∃ r, resolve_profiles state f t = .ok r) ↔
       ((lowercase f = "alice" ∨ lowercase f = "bob") ∧
        (lowercase t = "alice" ∨ lowercase t = "bob"))) ∧
    (∀ state f f' t t', lowercase f = lowercase f' →
       lowercase t = lowercase t' →
       ∀ r, ping_resolve state f t = .ok r ↔
            ping_resolve state f' t' = .ok r) ∧
    (∀ state f t, (∃ r, ping_resolve state f t = .ok r) ↔
       ((lowercase f = "alice" ∧
          (lowercase t = "bob" ∨ lowercase t = "mediator")) ∨
        (lowercase f = "bob" ∧
          (lowercase t = "alice" ∨ lowercase t = "mediator")))) ∧
    (∀ state a a', lowercase a = lowercase a' →
       ∀ p, fetch_resolve state a = .ok p ↔ fetch_resolve state a' = .ok p) ∧
    (∀ state a, (∃ p, fetch_resolve state a = .ok p) ↔
       (lowercase a = "alice" ∨ lowercase a = "bob")) := by
  refine ⟨?_, ?_, ?_, ?_, ?_, ?_⟩
  · intro state f f' t t' hf ht r
    unfold resolve_profiles
    rw [hf, ht]
    by_cases h1 : lowercase f' = "alice" <;>
      by_cases h2 : lowercase f' = "bob" <;>
      by_cases h3 : lowercase t' = "alice" <;>
      by_cases h4 : lowercase t' = "bob" <;>
      simp [h1, h2, h3, h4]
  · intro state f t
    constructor
    · rintro ⟨r, hr⟩
      unfold resolve_profiles at hr
      by_cases h1 : lowercase f = "alice" <;>
        by_cases h2 : lowercase f = "bob" <;>
        by_cases h3 : lowercase t = "alice" <;>
        by_cases h4 : lowercase t = "bob" <;>
        simp [h1, h2, h3, h4] at hr ⊢
    · rintro ⟨hf | hf, ht | ht⟩
      · exact ⟨(state.alice_profile, state.alice_profile, state.alice_info.did,
          state.alice_info.did, state.alice_mediator_did),
          by unfold resolve_profiles; simp [hf, ht]⟩
      · exact ⟨(state.alice_profile, state.bob_profile, state.alice_info.did,
          state.bob_info.did, state.bob_mediator_did),
          by unfold resolve_profiles; simp [hf, ht]⟩
      · exact ⟨(state.bob_profile, state.alice_profile, state.bob_info.did,
          state.alice_info.did, state.alice_mediator_did),
          by unfold resolve_profiles; simp [hf, ht]⟩
      · exact ⟨(state.bob_profile, state.bob_profile, state.bob_info.did,
          state.bob_info.did, state.bob_mediator_did),
          by unfold resolve_profiles; simp [hf, ht]⟩
  · intro state f f' t t' hf ht r
    unfold ping_resolve
    rw [hf, ht]
    by_cases h1 : lowercase f' = "alice" <;>
      by_cases h2 : lowercase f' = "bob" <;>
      by_cases h3 : lowercase t' = "alice" <;>
      by_cases h4 : lowercase t' = "bob" <;>
      by_cases h5 : lowercase t' = "mediator" <;>
      simp [h1, h2, h3, h4, h5]
  · intro state f t
    constructor
    · rintro ⟨r, hr⟩
      unfold ping_resolve at hr
      by_cases h1 : lowercase f = "alice" <;>
        by_cases h2 : lowercase f = "bob" <;>
        by_cases h3 : lowercase t = "alice" <;>
        by_cases h4 : lowercase t = "bob" <;>
        by_cases h5 : lowercase t = "mediator" <;>
        simp [h1, h2, h3, h4, h5] at hr ⊢
    · rintro (⟨hf, ht | ht⟩ | ⟨hf, ht | ht⟩)
      · exact ⟨(state.alice_profile, state.alice_info.did, state.bob_info.did),
          by unfold ping_resolve; simp [hf, ht]⟩
      · exact ⟨(state.alice_profile, state.alice_info.did,
          state.alice_mediator_did),
          by unfold ping_resolve; simp [hf, ht]⟩
      · exact ⟨(state.bob_profile, state.bob_info.did, state.alice_info.did),
          by unfold ping_resolve; simp [hf, ht]⟩
      · exact ⟨(state.bob_profile, state.bob_info.did, state.bob_mediator_did),
          by unfold ping_resolve; simp [hf, ht]⟩
  · intro state a a' ha p
    unfold fetch_resolve
    rw [ha]
    by_cases h1 : lowercase a' = "alice" <;>
      by_cases h2 : lowercase a' = "bob" <;>
      simp [h1, h2]
  · intro state a
    constructor
    · rintro ⟨p, hp⟩
      unfold fetch_resolve at hp
      by_cases h1 : lowercase a = "alice" <;>
        by_cases h2 : lowercase a = "bob" <;>
        simp [h1, h2] at hp ⊢
    · rintro (ha | ha)
      · exact ⟨state.alice_profile, by unfold fetch_resolve; simp [ha]⟩
      · exact ⟨state.bob_profile, by unfold fetch_resolve; simp [ha]⟩

/-- Witness for C10: "Alice"/"BOB" and "aLiCe"/"bob" resolve to the
identical profile/DID/mediator-DID tuple, and the mixed-case pair does
resolve successfully. -/
theorem alias_matching_case_insensitive_witness :
    ((resolve_profiles stEx "Alice" "BOB" =
        .ok ("alice-profile", "bob-profile", "did:peer:2.alice",
             "did:peer:2.bob", "did:peer:2.med-bob")) ↔
     (resolve_profiles stEx "aLiCe" "bob" =
        .ok ("alice-profile", "bob-profile", "did:peer:2.alice",
             "did:peer:2.bob", "did:peer:2.med-bob"))) ∧
    resolve_profiles stEx "Alice" "BOB" =
      .ok ("alice-profile", "bob-profile", "did:peer:2.alice",
           "did:peer:2.bob", "did:peer:2.med-bob") :=
  ⟨alias_matching_case_insensitive.1 stEx "Alice" "aLiCe" "BOB" "bob"
      rfl rfl _,
   rfl⟩

end DidCommDemo
